import Mathlib

/-
Verification of the Snowflake connection manager and query facade
(`lib/snowflake.ts`) shipped in the build-react-app-skill repository.

The repository contains two variants of the data-access helper:

* variant V0 (src/unnamed/part_000): a promise-memoized `getConnection`
  guarded by a module-level `connection` and `connectionPromise`, plus a
  `querySnowflake` facade with no retry logic;
* variant V1 (src/unnamed/part_001): `getOAuthToken`, `getConfig`,
  `getConnection` with a cached-token rotation check, `isRetryableError`,
  and a `query` facade with a retry budget.

Both variants are embedded below as pure Lean functions.  The
single-threaded cooperative scheduling of Node is modelled, where a claim
needs it, by small labelled transition systems whose atomic steps are the
code segments between `await` suspension points.
-/

namespace Snowflake

/-- Fixed path of the platform-injected token file (`tokenPath` in both
variants of the source). -/
def tokenPath : String := "/snowflake/session/token"

/-- Filesystem model: each of `fs.existsSync` and `fs.readFileSync` either
returns a value or throws (modelled as `Except` with the thrown message). -/
structure FileSys where
  existsResult : String → Except String Bool
  readResult : String → Except String String

/-- A filesystem in which the token file is absent (and reads fail). -/
def fsAbsent : FileSys :=
  ⟨fun _ => .ok false, fun _ => .error "ENOENT"⟩

/-- A filesystem in which the token file is present with the given content. -/
def fsWith (content : String) : FileSys :=
  ⟨fun _ => .ok true, fun _ => .ok content⟩

/-- A filesystem in which the existence check itself throws. -/
def fsExistsThrows (msg : String) : FileSys :=
  ⟨fun _ => .error msg, fun _ => .error msg⟩

/-- A filesystem in which the file exists but reading it throws. -/
def fsReadThrows (msg : String) : FileSys :=
  ⟨fun _ => .ok true, fun _ => .error msg⟩

/-- JavaScript `x || d` on an optional environment string: `undefined` and
the empty string are falsy and fall back to the default. -/
def jsOr (x : Option String) (d : String) : String :=
  match x with
  | none => d
  | some s => if s = "" then d else s

/-- JavaScript truthiness of a nullable string: `null`/`undefined` and the
empty string are falsy (`if (token)`, `!token` in the source). -/
def jsTruthy (x : Option String) : Bool :=
  match x with
  | none => false
  | some s => if s = "" then false else true

/-- The process environment variables read by both variants. -/
structure Env where
  account : Option String
  user : Option String
  warehouse : Option String
  database : Option String
  schema : Option String
  host : Option String

/-- Error shape used by the driver callbacks: an optional message and an
optional numeric code (the source reads `error.message?` and `error.code`). -/
structure SfError where
  message : Option String
  code : Option Int
deriving DecidableEq, Repr

/-- A scalar value in a result row. -/
inductive SqlValue where
  | str (s : String)
  | num (n : Int)
  | null
deriving DecidableEq, Repr

/-- A result row: a record mapping column names (verbatim, ordered) to
scalar values. -/
structure Row where
  fields : List (String × SqlValue)
deriving DecidableEq, Repr

/-- The `ConnectionOptions` object passed to `snowflake.createConnection`:
one flat record covers the shapes built by both variants (absent fields are
`none`). -/
structure ConnectionOptions where
  account : Option String
  accessUrl : Option String
  username : Option String
  host : Option String
  token : Option String
  warehouse : String
  database : String
  schema : String
  authenticator : String
deriving DecidableEq, Repr

/-- A connection handle: an opaque identity (fresh per
`snowflake.createConnection` call) together with the options it was
created from. -/
structure Conn where
  id : Nat
  opts : ConnectionOptions
deriving DecidableEq, Repr

/-- Helper for `strContains`: does `pat` occur as a contiguous run of the
second list? -/
def containsAux (pat : List Char) : List Char → Bool
  | [] => pat.isEmpty
  | c :: t => pat.isPrefixOf (c :: t) || containsAux pat t

/-- JavaScript `String.prototype.includes`. -/
def strContains (s pat : String) : Bool :=
  containsAux pat.toList s.toList

end Snowflake

namespace Snowflake.V1

/-- Embedding of `getOAuthToken` from src/unnamed/part_001 (lines 153-163):
`try { if (fs.existsSync(tokenPath)) return fs.readFileSync(tokenPath, "utf8") }
catch { } return null`.  Any throw from the existence check or the read is
swallowed and yields `null`. -/
def getOAuthToken (fs : FileSys) : Option String :=
  match fs.existsResult tokenPath with
  | .ok true =>
      match fs.readResult tokenPath with
      | .ok s => some s
      | .error _ => none
  | .ok false => none
  | .error _ => none

/-- Embedding of `getConfig` from src/unnamed/part_001 (lines 165-188).
The branch `if (token)` is a JavaScript truthiness test: a `null` token
and an empty-string token both take the external-browser branch. -/
def getConfig (env : Env) (fs : FileSys) : ConnectionOptions :=
  let acct := jsOr env.account "<account>"
  let wh := jsOr env.warehouse "<warehouse>"
  let db := jsOr env.database "<database>"
  let sch := jsOr env.schema "<schema>"
  let token := getOAuthToken fs
  if jsTruthy token then
    { account := some acct, accessUrl := none, username := none,
      host := env.host, token := token,
      warehouse := wh, database := db, schema := sch,
      authenticator := "oauth" }
  else
    { account := some acct, accessUrl := none,
      username := some (jsOr env.user "<username>"),
      host := none, token := none,
      warehouse := wh, database := db, schema := sch,
      authenticator := "EXTERNALBROWSER" }

/-- The module-level mutable state of src/unnamed/part_001: the cached
`connection` and `cachedToken`, plus bookkeeping that makes resource
identity observable (`nextId` numbers `createConnection` calls, `destroyed`
logs handles passed to `connection.destroy`). -/
structure MgrState where
  connection : Option Conn
  cachedToken : Option String
  nextId : Nat
  destroyed : List Conn
deriving DecidableEq, Repr

/-- The state of a freshly started process. -/
def coldState : MgrState := ⟨none, none, 0, []⟩

/-- The construction tail of `getConnection` (part_001 lines 202-207):
`const conn = snowflake.createConnection(getConfig()); await
conn.connectAsync(...); connection = conn; cachedToken = token;`.
`connectResult` is the outcome of `connectAsync`; on a throw nothing is
assigned, so `connection` and `cachedToken` keep their previous values. -/
def connectAndCache (env : Env) (fs : FileSys) (connectResult : Except SfError Unit)
    (token : Option String) (st : MgrState) : MgrState × Except SfError Conn :=
  let conn : Conn := ⟨st.nextId, getConfig env fs⟩
  match connectResult with
  | .ok _ =>
      ({ st with connection := some conn, cachedToken := token,
                 nextId := st.nextId + 1 }, .ok conn)
  | .error e =>
      ({ st with nextId := st.nextId + 1 }, .error e)

/-- Embedding of `getConnection` from src/unnamed/part_001 (lines 190-208).
`if (connection && (!token || token === cachedToken)) return connection;
if (connection) connection.destroy(() => {}); ...construct...`.
`!token` is a truthiness test: it holds for a `null` token and for an
empty-string token alike. -/
def getConnection (env : Env) (fs : FileSys) (connectResult : Except SfError Unit)
    (st : MgrState) : MgrState × Except SfError Conn :=
  let token := getOAuthToken fs
  match st.connection with
  | some c =>
      if jsTruthy token = false ∨ token = st.cachedToken then
        (st, .ok c)
      else
        connectAndCache env fs connectResult token
          { st with destroyed := st.destroyed ++ [c] }
  | none => connectAndCache env fs connectResult token st

/-- Embedding of `isRetryableError` from src/unnamed/part_001
(lines 210-217). -/
def isRetryableError (e : SfError) : Bool :=
  (match e.message with
   | some m =>
       strContains m "OAuth access token expired" ||
       strContains m "terminated connection"
   | none => false)
  || e.code == some 407002

/-- The external world observed by one attempt of `query`: the filesystem
at acquisition time, the outcome of `connectAsync` if a construction is
attempted, and the driver `execute` completion (`.ok none` models the
driver calling back with `rows` undefined). -/
structure Attempt where
  fs : FileSys
  connectResult : Except SfError Unit
  exec : Conn → Except SfError (Option (List Row))

/-- Embedding of `query` from src/unnamed/part_001 (lines 219-242).
`world k` is the external behavior seen by the k-th attempt; `retries` is
the remaining retry budget (source default 1).  The `catch` block covers
both the acquisition and the execution; a retryable failure with positive
budget nulls `connection` and re-runs everything with the budget
decremented. -/
def query (env : Env) (world : Nat → Attempt) (k : Nat) (retries : Nat)
    (st : MgrState) : MgrState × Except SfError (List Row) :=
  let a := world k
  match getConnection env a.fs a.connectResult st with
  | (st1, .error e) =>
      match retries with
      | rr + 1 =>
          if isRetryableError e then
            query env world (k + 1) rr { st1 with connection := none }
          else (st1, .error e)
      | 0 => (st1, .error e)
  | (st1, .ok c) =>
      match a.exec c with
      | .error e =>
          match retries with
          | rr + 1 =>
              if isRetryableError e then
                query env world (k + 1) rr { st1 with connection := none }
              else (st1, .error e)
          | 0 => (st1, .error e)
      | .ok rows => (st1, .ok (rows.getD []))

end Snowflake.V1

namespace Snowflake.V0

/-- Direct token-file access in src/unnamed/part_000 (lines 99-101):
`if (fs.existsSync(tokenPath)) { const token = fs.readFileSync(tokenPath,
"utf8"); ... }`.  There is no try/catch here, so a throw from either call
propagates (rejecting the construction). -/
def readTokenDirect (fs : FileSys) : Except String (Option String) :=
  match fs.existsResult tokenPath with
  | .error e => .error e
  | .ok false => .ok none
  | .ok true =>
      match fs.readResult tokenPath with
      | .error e => .error e
      | .ok s => .ok (some s)

/-- The mode-specific `connConfig` built inline in `getConnection` of
src/unnamed/part_000 (lines 94-123). -/
def chooseConfig (env : Env) (token : Option String) : ConnectionOptions :=
  match token with
  | some t =>
      let host := jsOr env.host ""
      let acct0 := (host.splitOn ".").headD ""
      { account := some (if acct0 = "" then "snowflake" else acct0),
        accessUrl := some ("https://" ++ host),
        username := none, host := none, token := some t,
        warehouse := jsOr env.warehouse "COMPUTE_WH",
        database := jsOr env.database "<database>",
        schema := jsOr env.schema "<schema>",
        authenticator := "OAUTH" }
  | none =>
      { account := some (jsOr env.account "<account>"),
        accessUrl := none,
        username := some (jsOr env.user "<username>"),
        host := none, token := none,
        warehouse := jsOr env.warehouse "<warehouse>",
        database := jsOr env.database "<database>",
        schema := jsOr env.schema "<schema>",
        authenticator := "EXTERNALBROWSER" }

deriving instance DecidableEq for Except

/-- Module-level mutable state of src/unnamed/part_000: the cached
`connection` and the `connectionPromise` marker.  A JavaScript promise,
once settled, keeps its outcome forever, and every later `await` of it
observes that same outcome; a settled promise is therefore modelled by the
outcome it settled with.  Neither variable is ever reset by the source,
in particular `connectionPromise` is not cleared when the construction
rejects.  `builds` counts `snowflake.createConnection` calls. -/
structure MgrState where
  connection : Option Conn
  pendingResult : Option (Except SfError Conn)
  builds : Nat
deriving DecidableEq, Repr

/-- The state of a freshly started process. -/
def coldState : MgrState := ⟨none, none, 0⟩

/-- Embedding of `getConnection` from src/unnamed/part_000 (lines 85-147),
observed sequentially (one call at a time; the interleaved behaviour is
the transition system `ConcA` below).  If `connection` is set it is
returned; otherwise an already-settled `connectionPromise` is awaited and
its outcome returned; otherwise the async IIFE runs: read the token file,
build the config, `createConnection`, connect (`connectResult` is the
outcome), and on success assign `connection`.  The IIFE promise is stored
in `connectionPromise` and is never cleared, also when it rejects. -/
def getConnection (env : Env) (fs : FileSys) (connectResult : Except SfError Unit)
    (st : MgrState) : MgrState × Except SfError Conn :=
  match st.connection with
  | some c => (st, .ok c)
  | none =>
      match st.pendingResult with
      | some r => (st, r)
      | none =>
          match readTokenDirect fs with
          | .error msg =>
              let e : SfError := ⟨some msg, none⟩
              ({ st with pendingResult := some (.error e) }, .error e)
          | .ok token =>
              let conn : Conn := ⟨st.builds, chooseConfig env token⟩
              match connectResult with
              | .ok _ =>
                  ({ connection := some conn, pendingResult := some (.ok conn),
                     builds := st.builds + 1 }, .ok conn)
              | .error e =>
                  ({ st with pendingResult := some (.error e),
                             builds := st.builds + 1 }, .error e)

/-- Embedding of `querySnowflake` from src/unnamed/part_000
(lines 149-164): acquire a handle, execute, resolve `(rows || [])` on
success, reject with the driver error otherwise.  No retry logic. -/
def querySnowflake (env : Env) (fs : FileSys) (connectResult : Except SfError Unit)
    (exec : Conn → Except SfError (Option (List Row))) (st : MgrState) :
    MgrState × Except SfError (List Row) :=
  match getConnection env fs connectResult st with
  | (st1, .error e) => (st1, .error e)
  | (st1, .ok c) =>
      match exec c with
      | .error e => (st1, .error e)
      | .ok rows => (st1, .ok (rows.getD []))

end Snowflake.V0

namespace Snowflake.ConcA

/-
Interleaving model of N concurrent `getConnection()` calls in
src/unnamed/part_000, starting from the cold state with the construction
succeeding.  Node is single threaded: a task only yields at an `await`, so
the atomic steps are the code segments between suspension points.

For a caller of `getConnection` the first segment runs the whole body up
to the first suspension of that caller: the two cache checks and, when both
miss, the synchronous prefix of the async IIFE (which reaches
`createConnection` before its first `await`) together with the assignment
of `connectionPromise`.  The caller then suspends awaiting the promise.
A separate step models the construction completing (the IIFE assigns
`connection` and resolves the promise), after which each awaiting caller
resumes with the resolved handle.  Handles are abstracted to their
identity. -/

/-- The program counter of one concurrent caller of `getConnection`. -/
inductive CallerState where
  | start
  | waiting
  | finished (h : Nat)
deriving DecidableEq, Repr

/-- Global state: one caller state per concurrent caller, plus the shared
module variables (`connection`, whether `connectionPromise` is set, the
promise resolution) and the number of construction attempts started. -/
structure Sys where
  callers : List CallerState
  connection : Option Nat
  pending : Bool
  resolved : Option Nat
  builds : Nat
deriving DecidableEq, Repr

/-- Cold manager with `n` callers about to invoke `getConnection`. -/
def init (n : Nat) : Sys :=
  ⟨List.replicate n .start, none, false, none, 0⟩

/-- One atomic step of the interleaved execution. -/
inductive Step : Sys → Sys → Prop where
  | hitCache (s : Sys) (i h : Nat) :
      s.callers[i]? = some .start → s.connection = some h →
      Step s { s with callers := s.callers.set i (.finished h) }
  | awaitPending (s : Sys) (i : Nat) :
      s.callers[i]? = some .start → s.connection = none → s.pending = true →
      Step s { s with callers := s.callers.set i .waiting }
  | startBuild (s : Sys) (i : Nat) :
      s.callers[i]? = some .start → s.connection = none → s.pending = false →
      Step s { s with callers := s.callers.set i .waiting, pending := true,
                      builds := s.builds + 1 }
  | buildDone (s : Sys) (h : Nat) :
      s.pending = true → s.resolved = none →
      Step s { s with connection := some h, resolved := some h }
  | observe (s : Sys) (i h : Nat) :
      s.callers[i]? = some .waiting → s.resolved = some h →
      Step s { s with callers := s.callers.set i (.finished h) }

/-- Reachability along atomic steps. -/
def Reaches (s t : Sys) : Prop := Relation.ReflTransGen Step s t

/-- Inductive invariant of the interleaved system. -/
def Inv (s : Sys) : Prop :=
  (s.pending = false →
     s.builds = 0 ∧ s.connection = none ∧ s.resolved = none ∧
     ∀ c ∈ s.callers, c = CallerState.start) ∧
  (s.pending = true → s.builds = 1) ∧
  s.connection = s.resolved ∧
  (s.resolved = none →
     ∀ c ∈ s.callers, c = CallerState.start ∨ c = CallerState.waiting) ∧
  (∀ h, s.resolved = some h →
     ∀ c ∈ s.callers,
       c = CallerState.start ∨ c = CallerState.waiting ∨
       c = CallerState.finished h)

end Snowflake.ConcA

namespace Snowflake.ConcB

/-
Interleaving model of concurrent `getConnection()` calls in
src/unnamed/part_001, with a fixed token-file state `fsToken` and the
construction succeeding.  The first atomic segment of a caller runs from
the top of `getConnection` through the cached-handle check and, on a
miss, the optional `destroy` of the old handle and `createConnection`,
stopping at `await conn.connectAsync(...)`.  The second segment resumes
after the connect, assigns `connection` and `cachedToken`, and returns
the handle freshly created by that caller.  There is no shared
pending-construction marker in this variant.  Handles are abstracted to
their identity (numbered by construction order). -/

/-- The program counter of one concurrent caller of `getConnection`. -/
inductive CallerState where
  | start
  | connecting (c : Nat)
  | finished (c : Nat)
deriving DecidableEq, Repr

/-- Global state: caller states, the shared `connection` and `cachedToken`,
the number of construction attempts started, and the handles passed to
`destroy`. -/
structure Sys where
  callers : List CallerState
  connection : Option Nat
  cachedToken : Option String
  builds : Nat
  destroyed : List Nat
deriving DecidableEq, Repr

/-- Cold manager with `n` callers about to invoke `getConnection`. -/
def init (n : Nat) : Sys :=
  ⟨List.replicate n .start, none, none, 0, []⟩

/-- One atomic step of the interleaved execution, with the token file
fixed at `fsToken`. -/
inductive Step (fsToken : Option String) : Sys → Sys → Prop where
  | reuse (s : Sys) (i c : Nat) :
      s.callers[i]? = some .start → s.connection = some c →
      (jsTruthy fsToken = false ∨ fsToken = s.cachedToken) →
      Step fsToken s { s with callers := s.callers.set i (.finished c) }
  | beginCold (s : Sys) (i : Nat) :
      s.callers[i]? = some .start → s.connection = none →
      Step fsToken s { s with callers := s.callers.set i (.connecting s.builds),
                              builds := s.builds + 1 }
  | beginRotate (s : Sys) (i c : Nat) :
      s.callers[i]? = some .start → s.connection = some c →
      ¬(jsTruthy fsToken = false ∨ fsToken = s.cachedToken) →
      Step fsToken s { s with callers := s.callers.set i (.connecting s.builds),
                              builds := s.builds + 1,
                              destroyed := s.destroyed ++ [c] }
  | complete (s : Sys) (i c : Nat) :
      s.callers[i]? = some (.connecting c) →
      Step fsToken s { s with callers := s.callers.set i (.finished c),
                              connection := some c, cachedToken := fsToken }

/-- The concrete all-finished state reached by two interleaved cold
callers in the counterexample trace below. -/
def twoBuilt : Sys :=
  ⟨[CallerState.finished 0, CallerState.finished 1], some 1, none, 2, []⟩

/-- Intermediate state: caller 0 has started a construction. -/
def bMid1 : Sys :=
  ⟨[CallerState.connecting 0, CallerState.start], none, none, 1, []⟩

/-- Intermediate state: both callers have started constructions. -/
def bMid2 : Sys :=
  ⟨[CallerState.connecting 0, CallerState.connecting 1], none, none, 2, []⟩

/-- Intermediate state: caller 0 finished, caller 1 still connecting. -/
def bMid3 : Sys :=
  ⟨[CallerState.finished 0, CallerState.connecting 1], some 0, none, 2, []⟩

end Snowflake.ConcB

namespace Snowflake

/-- Intermediate ConcA state: the single caller started the construction. -/
def aMid1 : ConcA.Sys := ⟨[ConcA.CallerState.waiting], none, true, none, 1⟩

/-- Intermediate ConcA state: the construction resolved with handle 7. -/
def aMid2 : ConcA.Sys := ⟨[ConcA.CallerState.waiting], some 7, true, some 7, 1⟩

/-- Final ConcA state: the single caller observed the resolved handle. -/
def aFin : ConcA.Sys := ⟨[ConcA.CallerState.finished 7], some 7, true, some 7, 1⟩

/-- An environment with no variables set (every lookup falls back to its
documented placeholder). -/
def env0 : Env := ⟨none, none, none, none, none, none⟩

/-- A recoverable driver error (message matched by `isRetryableError`). -/
def retryErr : SfError := ⟨some "OAuth access token expired", none⟩

/-- A construction failure (network unreachable). -/
def netErr : SfError := ⟨some "connect ECONNREFUSED 127.0.0.1:443", none⟩

/-- A non-recoverable query failure. -/
def tableErr : SfError := ⟨some "SQL compilation error: table not found", none⟩

/-- A sample result row with warehouse-reported column names. -/
def rowA : Row := ⟨[("REGION", SqlValue.str "EUROPE"), ("REVENUE", SqlValue.num 42)]⟩

/-- The handle built by the first attempt of the C2 witness scenario. -/
def connC2 : Conn := ⟨0, V1.getConfig env0 (fsWith "tok")⟩

/-- Manager state after the first (successful) acquisition of the C2
witness scenario. -/
def st1c : V1.MgrState := ⟨some connC2, some "tok", 1, []⟩

/-- The fresh handle built by the retry attempt of the C2 witness. -/
def connC2b : Conn := ⟨1, V1.getConfig env0 (fsWith "tok")⟩

/-- Manager state after the retry attempt of the C2 witness. -/
def st2c : V1.MgrState := ⟨some connC2b, some "tok", 2, []⟩

/-- External world of the C2 witness: the first attempt fails with an
expired-token error, the retry succeeds. -/
def world0 : Nat → V1.Attempt := fun k =>
  if k = 0 then ⟨fsWith "tok", .ok (), fun _ => .error retryErr⟩
  else ⟨fsWith "tok", .ok (), fun _ => .ok (some [rowA])⟩

/-- The handle built on a cold interactive acquisition from `env0`. -/
def connC8 : Conn := ⟨0, V1.getConfig env0 fsAbsent⟩

/-- Manager state after one cold interactive acquisition from `env0`. -/
def st1c8 : V1.MgrState := ⟨some connC8, none, 1, []⟩

/-- External world of the C8 witness: every execution fails with a
non-recoverable error. -/
def world8 : Nat → V1.Attempt := fun _ =>
  ⟨fsAbsent, .ok (), fun _ => .error tableErr⟩

/-- External world of the C9 witness: execution returns one row. -/
def world9 : Nat → V1.Attempt := fun _ =>
  ⟨fsAbsent, .ok (), fun _ => .ok (some [rowA])⟩

/-- External world of a C9 undefined-rows scenario: the driver completes
with `rows` undefined. -/
def world9n : Nat → V1.Attempt := fun _ =>
  ⟨fsAbsent, .ok (), fun _ => .ok none⟩

/-- A cached handle built under the delegated-token variant from token
`T1`. -/
def oauthConn : Conn := ⟨0, V1.getConfig env0 (fsWith "T1")⟩

/-- Manager state caching `oauthConn` with recorded token `T1`. -/
def c4State : V1.MgrState := ⟨some oauthConn, some "T1", 1, []⟩

/-- The handle rebuilt after the token file rotates to `T2`. -/
def rotConn : Conn := ⟨1, V1.getConfig env0 (fsWith "T2")⟩

/-- Manager state after the token-rotation rebuild of the C5 witness. -/
def rotState : V1.MgrState := ⟨some rotConn, some "T2", 2, [oauthConn]⟩

end Snowflake

namespace Snowflake.ConcA

theorem inv_init (n : Nat) : Inv (init n) := by
  refine ⟨?_, ?_, rfl, ?_, ?_⟩
  · intro _
    exact ⟨rfl, rfl, rfl, fun c hc => List.eq_of_mem_replicate hc⟩
  · intro h
    exact absurd h (by simp [init])
  · intro _ c hc
    exact Or.inl (List.eq_of_mem_replicate hc)
  · intro h hres
    exact absurd hres (by simp [init])

theorem inv_step {s t : Sys} (hinv : Inv s) (hstep : Step s t) : Inv t := by
  obtain ⟨h1, h2, h3, h4, h5⟩ := hinv
  cases hstep with
  | hitCache i h hi hc =>
      refine ⟨?_, h2, h3, ?_, ?_⟩
      · intro hp
        obtain ⟨_, hcn, _, _⟩ := h1 hp
        rw [hcn] at hc
        cases hc
      · intro hr
        rw [h3, hr] at hc
        cases hc
      · intro hv hres c hcm
        rcases List.mem_or_eq_of_mem_set hcm with hm | he
        · exact h5 hv hres c hm
        · have hsome : some h = some hv := by rw [← hc, h3, hres]
          injection hsome with hh
          exact Or.inr (Or.inr (by rw [he, hh]))
  | awaitPending i hi hcn hp =>
      refine ⟨?_, h2, h3, ?_, ?_⟩
      · intro hpf
        rw [hp] at hpf
        cases hpf
      · intro hr c hcm
        rcases List.mem_or_eq_of_mem_set hcm with hm | he
        · exact h4 hr c hm
        · exact Or.inr he
      · intro hv hres c hcm
        rcases List.mem_or_eq_of_mem_set hcm with hm | he
        · exact h5 hv hres c hm
        · exact Or.inr (Or.inl he)
  | startBuild i hi hcn hp =>
      refine ⟨?_, ?_, h3, ?_, ?_⟩
      · intro hpf
        cases hpf
      · intro _
        obtain ⟨hb, _, _, _⟩ := h1 hp
        simp [hb]
      · intro hr c hcm
        rcases List.mem_or_eq_of_mem_set hcm with hm | he
        · exact h4 hr c hm
        · exact Or.inr he
      · intro hv hres c hcm
        obtain ⟨_, _, hrn, _⟩ := h1 hp
        rw [hrn] at hres
        cases hres
  | buildDone h hp hrn =>
      refine ⟨?_, h2, rfl, ?_, ?_⟩
      · intro hpf
        rw [hp] at hpf
        cases hpf
      · intro hr
        cases hr
      · intro hv hres c hcm
        rcases h4 hrn c hcm with ha | hb
        · exact Or.inl ha
        · exact Or.inr (Or.inl hb)
  | observe i h hi hres0 =>
      refine ⟨?_, h2, h3, ?_, ?_⟩
      · intro hpf
        obtain ⟨_, _, hrn, _⟩ := h1 hpf
        rw [hrn] at hres0
        cases hres0
      · intro hr
        rw [hr] at hres0
        cases hres0
      · intro hv hres c hcm
        rcases List.mem_or_eq_of_mem_set hcm with hm | he
        · exact h5 hv hres c hm
        · rw [hres0] at hres
          injection hres with hh
          exact Or.inr (Or.inr (by rw [he, hh]))

theorem inv_of_reaches {n : Nat} {s : Sys} (hr : Reaches (init n) s) : Inv s := by
  induction hr with
  | refl => exact inv_init n
  | tail _ hstep ih => exact inv_step ih hstep

theorem step_length {s t : Sys} (hstep : Step s t) :
    t.callers.length = s.callers.length := by
  cases hstep <;> simp

theorem reaches_length {n : Nat} {s : Sys} (hr : Reaches (init n) s) :
    s.callers.length = n := by
  induction hr with
  | refl => simp [init]
  | tail _ hstep ih => rw [step_length hstep, ih]

end Snowflake.ConcA

namespace Snowflake

/-- C1 (amended): in the part_000 manager (the variant with the shared
`connectionPromise` marker), for every number N ≥ 1 of concurrent callers
invoking `getConnection` on a cold, uninitialized manager, every
interleaving of the cooperative scheduler in which all callers complete
starts exactly one underlying connection construction, and all N callers
resolve to the same handle; a caller arriving while a construction is in
progress awaits the pending construction instead of starting a second
one. -/
theorem C1_single_construction (n : Nat) (s : ConcA.Sys)
    (hn : 0 < n) (hr : ConcA.Reaches (ConcA.init n) s)
    (hdone : ∀ c ∈ s.callers, ∃ h, c = ConcA.CallerState.finished h) :
    s.builds = 1 ∧ ∃ h, ∀ c ∈ s.callers, c = ConcA.CallerState.finished h := by
  obtain ⟨h1, h2, h3, h4, h5⟩ := ConcA.inv_of_reaches hr
  have hlen := ConcA.reaches_length hr
  have hne : s.callers ≠ [] := by
    intro hnil
    rw [hnil] at hlen
    simp at hlen
    omega
  obtain ⟨c0, hc0⟩ := List.exists_mem_of_ne_nil _ hne
  obtain ⟨h0, hh0⟩ := hdone c0 hc0
  cases hres : s.resolved with
  | none =>
      rcases h4 hres c0 hc0 with h | h <;> (rw [hh0] at h; cases h)
  | some hv =>
      have hp : s.pending = true := by
        cases hpe : s.pending with
        | true => rfl
        | false =>
            obtain ⟨_, _, hrn, _⟩ := h1 hpe
            rw [hrn] at hres
            cases hres
      refine ⟨h2 hp, hv, ?_⟩
      intro c hc
      obtain ⟨hcv, hhc⟩ := hdone c hc
      rcases h5 hv hres c hc with h | h | h
      · rw [hhc] at h; cases h
      · rw [hhc] at h; cases h
      · exact h

/-- Witness for C1: one caller on the cold part_000 manager runs to
completion through an explicit trace, observing one construction and its
handle. -/
theorem C1_single_construction_witness :
    aFin.builds = 1 ∧
    ∃ h, ∀ c ∈ aFin.callers, c = ConcA.CallerState.finished h := by
  refine C1_single_construction 1 aFin (by decide) ?_ ?_
  · refine Relation.ReflTransGen.head
      (ConcA.Step.startBuild (ConcA.init 1) 0 rfl rfl rfl) ?_
    refine Relation.ReflTransGen.head
      (ConcA.Step.buildDone aMid1 7 rfl rfl) ?_
    refine Relation.ReflTransGen.head
      (ConcA.Step.observe aMid2 0 7 rfl rfl) ?_
    exact Relation.ReflTransGen.refl
  · intro c hc
    refine ⟨7, ?_⟩
    simpa [aFin] using hc

/-- C1 (counterexample): the part_001 manager has no pending-construction
marker.  Two concurrent callers on a cold manager, both passing the
cached-handle check before either construction completes, start two
construction attempts and resolve to two different handles — refuting the
claim as stated for the cited part_001 `getConnection`. -/
theorem C1_counterexample :
    Relation.ReflTransGen (ConcB.Step none) (ConcB.init 2) ConcB.twoBuilt ∧
    ConcB.twoBuilt.builds = 2 ∧
    ¬ ∃ h, ∀ c ∈ ConcB.twoBuilt.callers, c = ConcB.CallerState.finished h := by
  refine ⟨?_, rfl, ?_⟩
  · refine Relation.ReflTransGen.head
      (ConcB.Step.beginCold (ConcB.init 2) 0 rfl rfl) ?_
    refine Relation.ReflTransGen.head
      (ConcB.Step.beginCold ConcB.bMid1 1 rfl rfl) ?_
    refine Relation.ReflTransGen.head
      (ConcB.Step.complete ConcB.bMid2 0 0 rfl) ?_
    refine Relation.ReflTransGen.head
      (ConcB.Step.complete ConcB.bMid3 1 1 rfl) ?_
    exact Relation.ReflTransGen.refl
  · rintro ⟨h, hall⟩
    have hzero := hall (ConcB.CallerState.finished 0) (by simp [ConcB.twoBuilt])
    have hone := hall (ConcB.CallerState.finished 1) (by simp [ConcB.twoBuilt])
    injection hzero with he0
    injection hone with he1
    omega

end Snowflake

namespace Snowflake

/-- C10: reading the token signal is total: for every filesystem state
`getOAuthToken` returns either the token file content or `none` — a throw
from the existence check or from the read is swallowed and treated as the
file being absent (the interactive mode signal), and no filesystem
failure propagates (totality is expressed by the plain `Option String`
return type of the embedding). -/
theorem C10_token_read_total (fs : FileSys) :
    (∀ e, fs.existsResult tokenPath = .error e → V1.getOAuthToken fs = none) ∧
    (fs.existsResult tokenPath = .ok false → V1.getOAuthToken fs = none) ∧
    (∀ e, fs.existsResult tokenPath = .ok true →
        fs.readResult tokenPath = .error e → V1.getOAuthToken fs = none) ∧
    (∀ s, fs.existsResult tokenPath = .ok true →
        fs.readResult tokenPath = .ok s → V1.getOAuthToken fs = some s) := by
  refine ⟨?_, ?_, ?_, ?_⟩
  · intro e he
    simp [V1.getOAuthToken, he]
  · intro he
    simp [V1.getOAuthToken, he]
  · intro e h1 h2
    simp [V1.getOAuthToken, h1, h2]
  · intro s h1 h2
    simp [V1.getOAuthToken, h1, h2]

/-- Witness for C10 at concrete filesystems: a throwing existence check,
a throwing read, and a successful read. -/
theorem C10_token_read_total_witness :
    V1.getOAuthToken (fsExistsThrows "EACCES") = none ∧
    V1.getOAuthToken (fsReadThrows "EIO") = none ∧
    V1.getOAuthToken (fsWith "T1") = some "T1" := by
  refine ⟨?_, ?_, ?_⟩
  · exact (C10_token_read_total (fsExistsThrows "EACCES")).1 "EACCES" rfl
  · exact (C10_token_read_total (fsReadThrows "EIO")).2.2.1 "EIO" rfl rfl
  · exact (C10_token_read_total (fsWith "T1")).2.2.2 "T1" rfl rfl

/-- C7 (counterexample): with the token file present but empty, part_001
reads the token as the empty string, yet selects the interactive
external-browser configuration — the `if (token)` truthiness test treats
the empty string as falsy — refuting the claim that presence with
content T1 always selects the delegated-token configuration using T1. -/
theorem C7_counterexample :
    V1.getOAuthToken (fsWith "") = some "" ∧
    (V1.getConfig env0 (fsWith "")).authenticator = "EXTERNALBROWSER" ∧
    (V1.getConfig env0 (fsWith "")).token = none := by
  exact ⟨rfl, rfl, rfl⟩

/-- C7 (amended): mode selection is a pure function of the token file at
the fixed path, re-evaluated per call: token present with nonempty
content T selects the OAuth configuration carrying T and the host from
the environment; token absent — or present with empty content, which the
truthiness test treats the same as missing — selects the interactive
external-browser configuration; the selected configuration depends on
the filesystem only through the fixed token path, so toggling the file
between calls changes the next selection. -/
theorem C7_mode_selection (env : Env) (fs : FileSys) :
    (∀ t, V1.getOAuthToken fs = some t → t ≠ "" →
        (V1.getConfig env fs).authenticator = "oauth" ∧
        (V1.getConfig env fs).token = some t ∧
        (V1.getConfig env fs).host = env.host ∧
        (V1.getConfig env fs).username = none) ∧
    (V1.getOAuthToken fs = none →
        (V1.getConfig env fs).authenticator = "EXTERNALBROWSER" ∧
        (V1.getConfig env fs).token = none ∧
        (V1.getConfig env fs).host = none ∧
        (V1.getConfig env fs).username = some (jsOr env.user "<username>")) ∧
    (V1.getOAuthToken fs = some "" →
        (V1.getConfig env fs).authenticator = "EXTERNALBROWSER") ∧
    (∀ fs2 : FileSys,
        fs.existsResult tokenPath = fs2.existsResult tokenPath →
        fs.readResult tokenPath = fs2.readResult tokenPath →
        V1.getConfig env fs = V1.getConfig env fs2) := by
  refine ⟨?_, ?_, ?_, ?_⟩
  · intro t ht hne
    simp [V1.getConfig, ht, jsTruthy, hne]
  · intro ht
    simp [V1.getConfig, ht, jsTruthy]
  · intro ht
    simp [V1.getConfig, ht, jsTruthy]
  · intro fs2 hex hrd
    have htok : V1.getOAuthToken fs = V1.getOAuthToken fs2 := by
      simp [V1.getOAuthToken, hex, hrd]
    simp [V1.getConfig, htok]

/-- Witness for C7: on the empty environment, a present token file with
nonempty content T1 yields the OAuth configuration carrying T1, an
absent file yields the external-browser configuration. -/
theorem C7_mode_selection_witness :
    (V1.getConfig env0 (fsWith "T1")).authenticator = "oauth" ∧
    (V1.getConfig env0 (fsWith "T1")).token = some "T1" ∧
    (V1.getConfig env0 fsAbsent).authenticator = "EXTERNALBROWSER" := by
  have h1 := (C7_mode_selection env0 (fsWith "T1")).1 "T1" rfl (by decide)
  have h2 := (C7_mode_selection env0 fsAbsent).2.1 rfl
  exact ⟨h1.1, h1.2.1, h2.1⟩

/-- C6: acquisition is idempotent under an unchanged environment: with a
cached handle and an unchanged signal (interactive with the file still
absent, or delegated-token with the on-disk content equal to the recorded
token), part_001 acquisition returns the cached handle with the state
untouched (so repeated calls keep returning it, with no construction);
part_000 acquisition always returns a cached handle untouched. -/
theorem C6_idempotent_acquisition (env : Env) (fs : FileSys)
    (cr : Except SfError Unit) (st : V1.MgrState) (c : Conn)
    (hconn : st.connection = some c)
    (henv : (st.cachedToken = none ∧ V1.getOAuthToken fs = none) ∨
            (∃ t, st.cachedToken = some t ∧ V1.getOAuthToken fs = some t)) :
    V1.getConnection env fs cr st = (st, .ok c) ∧
    (∀ (st0 : V0.MgrState) (c0 : Conn), st0.connection = some c0 →
        V0.getConnection env fs cr st0 = (st0, .ok c0)) := by
  constructor
  · have hcond : jsTruthy (V1.getOAuthToken fs) = false ∨
        V1.getOAuthToken fs = st.cachedToken := by
      rcases henv with ⟨hct, hfs⟩ | ⟨t, hct, hfs⟩
      · rw [hfs]
        exact Or.inl rfl
      · rw [hfs, hct]
        exact Or.inr rfl
    simp only [V1.getConnection, hconn]
    rw [if_pos hcond]
  · intro st0 c0 h0
    simp [V0.getConnection, h0]

/-- Witness for C6: a cached delegated-token handle with the on-disk
token unchanged is returned as is by both variants. -/
theorem C6_idempotent_acquisition_witness :
    V1.getConnection env0 (fsWith "T1") (.ok ()) c4State =
      (c4State, .ok oauthConn) ∧
    V0.getConnection env0 (fsWith "T1") (.ok ())
        ⟨some oauthConn, some (.ok oauthConn), 1⟩ =
      (⟨some oauthConn, some (.ok oauthConn), 1⟩, .ok oauthConn) := by
  have h := C6_idempotent_acquisition env0 (fsWith "T1") (.ok ()) c4State
    oauthConn rfl (Or.inr ⟨"T1", rfl, rfl⟩)
  exact ⟨h.1, h.2 _ _ rfl⟩

/-- C5 (counterexample): with a cached delegated-token handle recorded
under token T1 and the token file now reading the empty string (a
content T2 = "" different from T1), part_001 releases nothing and
constructs nothing: `!token` treats the empty token as missing, so the
old handle is returned and the state (including the recorded token) is
unchanged — refuting the claim as stated. -/
theorem C5_counterexample :
    V1.getOAuthToken (fsWith "") = some "" ∧
    ("" : String) ≠ "T1" ∧
    V1.getConnection env0 (fsWith "") (.ok ()) c4State =
      (c4State, .ok oauthConn) := by
  refine ⟨rfl, by decide, rfl⟩

/-- C5 (amended): token rotation holds for nonempty replacement tokens:
with a cached delegated-token handle recorded under token T1 and the
token file now reading T2 with T2 ≠ T1 and T2 nonempty, part_001
acquisition passes the old handle to destroy (appended to the release
log; the destroy callback swallows failures), constructs a new handle
whose configuration carries T2, caches it and records T2 as the cached
token.  When the file instead reads the empty string, the cached handle
is reused unchanged. -/
theorem C5_token_rotation (env : Env) (fs : FileSys) (st : V1.MgrState)
    (c : Conn) (t1 t2 : String)
    (hconn : st.connection = some c)
    (hcached : st.cachedToken = some t1)
    (hfs : V1.getOAuthToken fs = some t2)
    (hne : t2 ≠ t1) (hne2 : t2 ≠ "") :
    V1.getConnection env fs (.ok ()) st =
      ({ st with connection := some ⟨st.nextId, V1.getConfig env fs⟩,
                 cachedToken := some t2, nextId := st.nextId + 1,
                 destroyed := st.destroyed ++ [c] },
       .ok ⟨st.nextId, V1.getConfig env fs⟩) ∧
    (V1.getConfig env fs).token = some t2 ∧
    (V1.getConfig env fs).authenticator = "oauth" := by
  have htr : jsTruthy (V1.getOAuthToken fs) = true := by
    rw [hfs]
    simp [jsTruthy, hne2]
  refine ⟨?_, ?_, ?_⟩
  · have hcond : ¬(jsTruthy (V1.getOAuthToken fs) = false ∨
        V1.getOAuthToken fs = st.cachedToken) := by
      rintro (h | h)
      · rw [htr] at h
        cases h
      · rw [hfs, hcached] at h
        injection h with hh
        exact hne hh
    simp only [V1.getConnection, hconn]
    rw [if_neg hcond]
    simp only [V1.connectAndCache, hfs]
  · simp [V1.getConfig, hfs, jsTruthy, hne2]
  · simp [V1.getConfig, hfs, jsTruthy, hne2]

/-- Witness for C5: rotating the token file from T1 to the nonempty T2
rebuilds the cached handle with a configuration carrying T2 and releases
the old handle. -/
theorem C5_token_rotation_witness :
    V1.getConnection env0 (fsWith "T2") (.ok ()) c4State =
      (rotState, .ok rotConn) ∧
    rotConn.opts.token = some "T2" := by
  have h := C5_token_rotation env0 (fsWith "T2") c4State oauthConn "T1" "T2"
    rfl rfl rfl (by decide) (by decide)
  exact ⟨h.1, h.2.1⟩

end Snowflake

namespace Snowflake

/-- C3 (counterexample): in the part_000 manager a failed cold
construction does NOT clear the pending-construction marker: the rejected
promise stays cached (`pendingResult` keeps the rejection, `builds`
stays 1), and the next acquisition — even one whose construction would
succeed — returns the original failure without attempting a new
construction, refuting the claim as stated for the cited part_000
`getConnection`. -/
theorem C3_counterexample :
    V0.getConnection env0 fsAbsent (.error netErr) V0.coldState =
      (⟨none, some (.error netErr), 1⟩, .error netErr) ∧
    V0.getConnection env0 fsAbsent (.ok ())
        ⟨none, some (.error netErr), 1⟩ =
      (⟨none, some (.error netErr), 1⟩, .error netErr) := by
  exact ⟨rfl, rfl⟩

/-- C3 (amended): in the part_001 manager, an acquisition whose
construction fails from a state with no cached handle caches nothing (the
state changes only in the handle counter), surfaces the failure, and the
next acquisition re-attempts construction from scratch; in the part_000
manager the pending-construction marker is not cleared on failure, and
every later acquisition returns the cached rejection without a new
attempt. -/
theorem C3_failure_recovery (env : Env) (fs : FileSys) (e : SfError)
    (st : V1.MgrState) (hcold : st.connection = none) :
    V1.getConnection env fs (.error e) st =
      ({ st with nextId := st.nextId + 1 }, .error e) ∧
    (∀ (fs2 : FileSys) (st2 : V1.MgrState), st2.connection = none →
        V1.getConnection env fs2 (.ok ()) st2 =
          ({ st2 with connection := some ⟨st2.nextId, V1.getConfig env fs2⟩,
                      cachedToken := V1.getOAuthToken fs2,
                      nextId := st2.nextId + 1 },
           .ok ⟨st2.nextId, V1.getConfig env fs2⟩)) ∧
    (∀ (fs2 : FileSys) (cr : Except SfError Unit) (st0 : V0.MgrState)
        (e0 : SfError),
        st0.connection = none → st0.pendingResult = some (.error e0) →
        V0.getConnection env fs2 cr st0 = (st0, .error e0)) := by
  refine ⟨?_, ?_, ?_⟩
  · simp only [V1.getConnection, hcold, V1.connectAndCache]
  · intro fs2 st2 h2
    simp only [V1.getConnection, h2, V1.connectAndCache]
  · intro fs2 cr st0 e0 h0 hp
    simp [V0.getConnection, h0, hp]

/-- Witness for C3: a cold part_001 acquisition failing with a network
error leaves no handle and no token cached. -/
theorem C3_failure_recovery_witness :
    V1.getConnection env0 fsAbsent (.error netErr) V1.coldState =
      (⟨none, none, 1, []⟩, .error netErr) :=
  (C3_failure_recovery env0 fsAbsent netErr V1.coldState rfl).1

/-- C4 (counterexample): with a cached handle built under the
delegated-token variant (recorded token T1) and the token file now
absent, the part_001 manager returns the cached delegated-token handle
unchanged — it silently reuses a handle of the wrong variant instead of
discarding it and constructing an interactive one, refuting the claim as
stated. -/
theorem C4_counterexample :
    oauthConn.opts.authenticator = "oauth" ∧
    V1.getOAuthToken fsAbsent = none ∧
    V1.getConnection env0 fsAbsent (.ok ()) c4State =
      (c4State, .ok oauthConn) := by
  exact ⟨rfl, rfl, rfl⟩

/-- C4 (amended): the credential variant of a handle is fixed at creation
(its configuration is immutable).  In the part_001 manager, when the
token file is present with nonempty content differing from the recorded
cached token, the cached handle is destroyed and a fresh handle is
constructed under the configuration re-derived from the current
environment (which carries the new token); when the token file is absent
the cached handle is returned unchanged regardless of the variant it was
built under; the part_000 manager always returns the cached handle
without re-evaluating the signal. -/
theorem C4_variant_switch (env : Env) (fs : FileSys) (st : V1.MgrState)
    (c : Conn) (hconn : st.connection = some c) :
    (∀ t, V1.getOAuthToken fs = some t → t ≠ "" → st.cachedToken ≠ some t →
        V1.getConnection env fs (.ok ()) st =
          ({ st with connection := some ⟨st.nextId, V1.getConfig env fs⟩,
                     cachedToken := some t, nextId := st.nextId + 1,
                     destroyed := st.destroyed ++ [c] },
           .ok ⟨st.nextId, V1.getConfig env fs⟩) ∧
        (V1.getConfig env fs).token = some t) ∧
    (V1.getOAuthToken fs = none →
        V1.getConnection env fs (.ok ()) st = (st, .ok c)) ∧
    (∀ (st0 : V0.MgrState) (c0 : Conn) (cr : Except SfError Unit),
        st0.connection = some c0 →
        V0.getConnection env fs cr st0 = (st0, .ok c0)) := by
  refine ⟨?_, ?_, ?_⟩
  · intro t ht hte hne
    have htr : jsTruthy (V1.getOAuthToken fs) = true := by
      rw [ht]
      simp [jsTruthy, hte]
    constructor
    · have hcond : ¬(jsTruthy (V1.getOAuthToken fs) = false ∨
          V1.getOAuthToken fs = st.cachedToken) := by
        rintro (h | h)
        · rw [htr] at h
          cases h
        · rw [ht] at h
          exact hne h.symm
      simp only [V1.getConnection, hconn]
      rw [if_neg hcond]
      simp only [V1.connectAndCache, ht]
    · simp [V1.getConfig, ht, jsTruthy, hte]
  · intro ht
    have hfalse : jsTruthy (V1.getOAuthToken fs) = false := by
      rw [ht]
      rfl
    simp only [V1.getConnection, hconn]
    rw [if_pos (Or.inl hfalse)]
  · intro st0 c0 cr h0
    simp [V0.getConnection, h0]

/-- Witness for C4 (amended): a token file appearing with content T2 over
a cache recorded under T1 destroys the old handle and rebuilds under the
new token. -/
theorem C4_variant_switch_witness :
    V1.getConnection env0 (fsWith "T2") (.ok ()) c4State =
      (rotState, .ok rotConn) ∧
    rotConn.opts.token = some "T2" ∧
    V0.getConnection env0 (fsWith "T2") (.ok ())
        ⟨some oauthConn, some (.ok oauthConn), 1⟩ =
      (⟨some oauthConn, some (.ok oauthConn), 1⟩, .ok oauthConn) := by
  have h := C4_variant_switch env0 (fsWith "T2") c4State oauthConn rfl
  have h1 := h.1 "T2" rfl (by decide) (by decide)
  exact ⟨h1.1, h1.2, h.2.2 _ _ _ rfl⟩

end Snowflake

namespace Snowflake

/-- C2: when an execution attempt of `query` fails with a recoverable
signal while the retry budget is positive, the cached handle is
invalidated, the budget is decremented, and the whole operation is re-run
from handle acquisition; with the default budget 1 this yields exactly
one automatic retry, whose acquisition (when it succeeds) constructs a
fresh handle from the re-read environment, and the outcome of the retried
execution is the overall outcome. -/
theorem C2_retry_on_recoverable (env : Env) (world : Nat → V1.Attempt)
    (k r : Nat) (st st1 : V1.MgrState) (c : Conn) (e : SfError)
    (hacq : V1.getConnection env (world k).fs (world k).connectResult st =
      (st1, .ok c))
    (hexec : (world k).exec c = .error e)
    (hretry : V1.isRetryableError e = true) :
    V1.query env world k (r + 1) st =
      V1.query env world (k + 1) r { st1 with connection := none } ∧
    (∀ (st2 : V1.MgrState) (c2 : Conn),
        V1.getConnection env (world (k + 1)).fs (world (k + 1)).connectResult
            { st1 with connection := none } = (st2, .ok c2) →
        c2 = ⟨st1.nextId, V1.getConfig env (world (k + 1)).fs⟩ ∧
        (∀ rs, (world (k + 1)).exec c2 = .ok rs →
            V1.query env world k 1 st = (st2, .ok (rs.getD []))) ∧
        (∀ e2, (world (k + 1)).exec c2 = .error e2 →
            V1.query env world k 1 st = (st2, .error e2))) := by
  have hstep : ∀ rr : Nat, V1.query env world k (rr + 1) st =
      V1.query env world (k + 1) rr { st1 with connection := none } := by
    intro rr
    rw [V1.query.eq_def]
    simp [hacq, hexec, hretry]
  refine ⟨hstep r, ?_⟩
  intro st2 c2 h2
  have hfresh : c2 = (⟨st1.nextId, V1.getConfig env (world (k + 1)).fs⟩ : Conn) := by
    simp only [V1.getConnection, V1.connectAndCache] at h2
    cases hcr : (world (k + 1)).connectResult with
    | error e3 =>
        rw [hcr] at h2
        simp at h2
    | ok u =>
        rw [hcr] at h2
        simp at h2
        exact h2.2.symm
  refine ⟨hfresh, ?_, ?_⟩
  · intro rs hrs
    rw [hstep 0]
    rw [V1.query.eq_def]
    simp [h2, hrs]
  · intro e2 he2
    rw [hstep 0]
    rw [V1.query.eq_def]
    simp [h2, he2]

/-- Witness for C2: with the first attempt failing on an expired OAuth
token and the retry succeeding, `query` with the default budget returns
the rows of the retry against the freshly built handle. -/
theorem C2_retry_witness :
    V1.query env0 world0 0 1 V1.coldState = (st2c, .ok [rowA]) := by
  have h := C2_retry_on_recoverable env0 world0 0 0 V1.coldState st1c connC2
    retryErr rfl rfl (by decide)
  exact (h.2 st2c connC2b rfl).2.1 (some [rowA]) rfl

/-- C8: a `query` failing with a non-recoverable error, or failing
recoverably with the retry budget exhausted, propagates the failure
immediately: the result is the failure and the returned state is exactly
the state after the single attempt (no invalidation, no reconnection, no
further attempt); the same holds when the acquisition itself fails. -/
theorem C8_no_retry_nonrecoverable (env : Env) (world : Nat → V1.Attempt)
    (k retries : Nat) (st st1 : V1.MgrState) (e : SfError)
    (hnr : V1.isRetryableError e = false ∨ retries = 0) :
    (∀ c, V1.getConnection env (world k).fs (world k).connectResult st =
          (st1, .ok c) →
        (world k).exec c = .error e →
        V1.query env world k retries st = (st1, .error e)) ∧
    (V1.getConnection env (world k).fs (world k).connectResult st =
        (st1, .error e) →
      V1.query env world k retries st = (st1, .error e)) := by
  constructor
  · intro c hacq hexec
    rw [V1.query.eq_def]
    rcases hnr with hf | h0
    · cases retries with
      | zero => simp [hacq, hexec]
      | succ rr => simp [hacq, hexec, hf]
    · subst h0
      simp [hacq, hexec]
  · intro hacq
    rw [V1.query.eq_def]
    rcases hnr with hf | h0
    · cases retries with
      | zero => simp [hacq]
      | succ rr => simp [hacq, hf]
    · subst h0
      simp [hacq]

/-- Witness for C8: a "table not found" failure is propagated on the
first attempt with the state left as built by that attempt. -/
theorem C8_no_retry_witness :
    V1.query env0 world8 0 1 V1.coldState = (st1c8, .error tableErr) := by
  have h := C8_no_retry_nonrecoverable env0 world8 0 1 V1.coldState st1c8
    tableErr (Or.inl (by decide))
  exact h.1 connC8 rfl rfl

/-- C9: a successful execution returns exactly the ordered row records
reported by the warehouse — the very same list, column names and order
included, with no client-side transformation — and a driver completion
with no rows at all yields the empty list as a valid success; the same
holds for the part_000 `querySnowflake` facade. -/
theorem C9_rows_verbatim (env : Env) (world : Nat → V1.Attempt)
    (k retries : Nat) (st st1 : V1.MgrState) (c : Conn)
    (hacq : V1.getConnection env (world k).fs (world k).connectResult st =
      (st1, .ok c)) :
    (∀ rs, (world k).exec c = .ok (some rs) →
        V1.query env world k retries st = (st1, .ok rs)) ∧
    ((world k).exec c = .ok none →
        V1.query env world k retries st = (st1, .ok [])) ∧
    (∀ (fs : FileSys) (cr : Except SfError Unit)
        (exec0 : Conn → Except SfError (Option (List Row)))
        (st0 st01 : V0.MgrState) (c0 : Conn),
        V0.getConnection env fs cr st0 = (st01, .ok c0) →
        (∀ rs, exec0 c0 = .ok (some rs) →
            V0.querySnowflake env fs cr exec0 st0 = (st01, .ok rs)) ∧
        (exec0 c0 = .ok none →
            V0.querySnowflake env fs cr exec0 st0 = (st01, .ok []))) := by
  refine ⟨?_, ?_, ?_⟩
  · intro rs hrs
    rw [V1.query.eq_def]
    simp [hacq, hrs]
  · intro hrs
    rw [V1.query.eq_def]
    simp [hacq, hrs]
  · intro fs cr exec0 st0 st01 c0 hacq0
    constructor
    · intro rs hrs
      simp [V0.querySnowflake, hacq0, hrs]
    · intro hrs
      simp [V0.querySnowflake, hacq0, hrs]

/-- Witness for C9: one returned row comes back verbatim, and a driver
completion with `rows` undefined comes back as the empty list. -/
theorem C9_rows_verbatim_witness :
    V1.query env0 world9 0 1 V1.coldState = (st1c8, .ok [rowA]) ∧
    V1.query env0 world9n 0 1 V1.coldState = (st1c8, .ok []) := by
  constructor
  · exact (C9_rows_verbatim env0 world9 0 1 V1.coldState st1c8 connC8
      rfl).1 [rowA] rfl
  · exact (C9_rows_verbatim env0 world9n 0 1 V1.coldState st1c8 connC8
      rfl).2.1 rfl

end Snowflake
